import Mathlib

/-!
# Payment routes of AutoCare Pro (`backend/routes/payments.js`)

A shallow embedding of the four route handlers of the payments router

* `POST /create-payment-intent`
* `POST /confirm-payment`
* `GET  /config`
* `POST /webhook`

together with the validation chains attached to them, followed by the
properties of the specification that concern them.

## Modelling conventions

* JavaScript values that travel in request bodies, webhook events, broadcast
  payloads and JSON responses are terms of `JsVal`.  Numbers are exact
  rationals (`JsVal.num`) plus `NaN`; IEEE rounding of `*` and `/` is not
  modelled.
* A handler is a value of `Js Response`: the list of externally visible effects
  it performed, in order (gateway calls, broadcasts), and either the response
  it sent or the exception that escaped it.
* Everything the router obtains from outside the file is a field of `Env`
  (the Stripe client, `process.env`, the clock, and the three conversions
  between numbers and strings that the ECMAScript runtime supplies) or of
  `Request` (`req.body`, `req.user`, the signature header, the `socketio`
  application setting).
* The validation chains are those of lines 14-18 and 73-75.  A standard
  validator of express-validator runs on the string form of the field, item by
  item when the field is an array; a chain without `.optional()` also runs on a
  missing field, whose string form is empty.
* The file imports `authenticateToken` but attaches it to no route, so
  `req.user` is whatever reached the handler: `none` stands for `undefined`.
* The output of `console.log` / `console.error` is not part of the model.
-/

namespace Payments

/-! ## JavaScript values -/

/-- JavaScript values: `undefined`, `null`, booleans, finite numbers, `NaN`,
strings, arrays and plain objects (association lists, first binding wins). -/
inductive JsVal where
  | undefined
  | null
  | bool (b : Bool)
  | num (q : ℚ)
  | nan
  | str (s : String)
  | arr (items : List JsVal)
  | obj (props : List (String × JsVal))
  deriving Inhabited

/-- An exception value (`Error`), identified by its `message`. -/
structure JsError where
  message : String
  deriving DecidableEq, Inhabited

/-- The `TypeError` raised by a property read on `undefined` / `null` or by a
call of something that is not a function. -/
def typeError (what : String) : JsError := ⟨"TypeError: " ++ what⟩

namespace JsVal

/-- Property read `v.k` for the property names this router reads (none of them
lives on a prototype): a `TypeError` on `undefined` and `null`, the own
property of an object, `undefined` otherwise. -/
def getProp (v : JsVal) (k : String) : Except JsError JsVal :=
  match v with
  | .undefined => .error (typeError ("Cannot read properties of undefined (reading " ++ k ++ ")"))
  | .null => .error (typeError ("Cannot read properties of null (reading " ++ k ++ ")"))
  | .obj props => .ok ((props.lookup k).getD .undefined)
  | _ => .ok .undefined

/-- Field selection of express-validator (`_.get(req.body, path)`): like a
property read, but `undefined` instead of an exception on a missing body. -/
def select (v : JsVal) (k : String) : JsVal :=
  match v with
  | .obj props => (props.lookup k).getD .undefined
  | _ => .undefined

/-- Strict equality `v === s` against a string literal. -/
def strictEqStr (v : JsVal) (s : String) : Bool :=
  match v with
  | .str t => t == s
  | _ => false

mutual
/-- ECMAScript `ToString` on the values of the model; `nts` is
`Number::toString`.  Arrays join their items with commas. -/
def toStr (nts : ℚ → String) : JsVal → String
  | .undefined => "undefined"
  | .null => "null"
  | .bool b => if b then "true" else "false"
  | .num q => nts q
  | .nan => "NaN"
  | .str s => s
  | .arr items => joinItems nts items
  | .obj _ => "[object Object]"
/-- The body of `Array.prototype.join` with separator `","`. -/
def joinItems (nts : ℚ → String) : List JsVal → String
  | [] => ""
  | [x] => itemStr nts x
  | x :: y :: rest => itemStr nts x ++ "," ++ joinItems nts (y :: rest)
/-- One item inside `join`: `undefined` and `null` print as the empty string. -/
def itemStr (nts : ℚ → String) : JsVal → String
  | .undefined => ""
  | .null => ""
  | v => toStr nts v
end

end JsVal

/-! ## The environment of the router -/

/-- The value of `req.user` as left by the authentication middleware: the user document. -/
structure User where
  _id : String
  name : String
  email : String
  deriving DecidableEq, Inhabited

/-- A Stripe PaymentIntent as returned by the SDK. -/
structure PaymentIntent where
  id : String
  client_secret : String
  amount : ℤ
  currency : String
  status : String
  deriving DecidableEq, Inhabited

/-- The `metadata` object sent with `paymentIntents.create`. -/
structure Metadata where
  userId : String
  userName : String
  userEmail : String
  deriving DecidableEq, Inhabited

/-- The argument of `stripe.paymentIntents.create`. -/
structure CreateParams where
  amount : JsVal
  currency : String
  description : JsVal
  metadata : Metadata

/-- What the handlers use from outside `payments.js`. -/
structure Env where
  /-- The `Number::toString` of the runtime. -/
  numberToString : ℚ → String
  /-- The `StringToNumber` of the runtime; yields `JsVal.num _` or `JsVal.nan`. -/
  stringToNumber : String → JsVal
  /-- The `String.prototype.toLowerCase` of the runtime. -/
  toLowerCase : String → String
  /-- The value of `process.env.STRIPE_PUBLISHABLE_KEY`. -/
  STRIPE_PUBLISHABLE_KEY : JsVal
  /-- The value of `process.env.STRIPE_WEBHOOK_SECRET` (`none` when unset). -/
  STRIPE_WEBHOOK_SECRET : Option String
  /-- Outcome of `await stripe.paymentIntents.create(params)`. -/
  paymentIntentsCreate : CreateParams → Except JsError PaymentIntent
  /-- Outcome of `await stripe.paymentIntents.retrieve(id)`. -/
  paymentIntentsRetrieve : JsVal → Except JsError PaymentIntent
  /-- Outcome of `stripe.webhooks.constructEvent(body, sig, secret)`: the
  verified event, or the signature-verification error. -/
  constructEvent : JsVal → JsVal → String → Except JsError JsVal
  /-- The value of `new Date()`. -/
  now : String

/-- An incoming request as seen by a handler. -/
structure Request where
  /-- The parsed body `req.body`. -/
  body : JsVal
  /-- The value of `req.user`; `none` when no authentication middleware has set it. -/
  user : Option User
  /-- The header `req.headers['stripe-signature']`. -/
  stripeSignature : JsVal
  /-- Whether `req.app.get('socketio')` yields the socket server (`true`) or
  `undefined` (`false`). -/
  socketio : Bool

/-- The body of a response: `res.json(value)` or `res.send(text)`. -/
inductive ResBody where
  | json (v : JsVal)
  | text (s : String)

/-- A response: status code and body. -/
structure Response where
  status : Nat
  body : ResBody

/-- The response of `res.json(v)`: status 200. -/
def Response.json (v : JsVal) : Response := ⟨200, .json v⟩

/-- The response of `res.status(code).json(v)`. -/
def Response.statusJson (code : Nat) (v : JsVal) : Response := ⟨code, .json v⟩

/-- The response of `res.status(code).send(text)`. -/
def Response.statusSend (code : Nat) (s : String) : Response := ⟨code, .text s⟩

/-- The JSON value of a response, `undefined` for a plain-text response. -/
def Response.jsonBody (r : Response) : JsVal :=
  match r.body with
  | .json v => v
  | .text _ => .undefined

/-- Read `path` inside a JSON value, `undefined` where a step is missing. -/
def JsVal.at (v : JsVal) : List String → JsVal
  | [] => v
  | k :: ks => (v.select k).at ks

/-! ## Effects and the handler monad -/

/-- Externally visible actions of a handler. -/
inductive Effect where
  /-- A call `stripe.paymentIntents.create(params)`. -/
  | gatewayCreate (params : CreateParams)
  /-- A call `stripe.paymentIntents.retrieve(id)`. -/
  | gatewayRetrieve (id : JsVal)
  /-- A broadcast `io.to(room).emit(event, payload)`. -/
  | emit (room : String) (event : String) (payload : JsVal)

/-- Whether an effect is a call to the payment gateway. -/
def Effect.isGatewayCall : Effect → Bool
  | .gatewayCreate _ => true
  | .gatewayRetrieve _ => true
  | .emit _ _ _ => false

/-- Whether an effect is a broadcast. -/
def Effect.isEmit : Effect → Bool
  | .emit _ _ _ => true
  | _ => false

/-- A computation: the effects performed so far and either a value or the
exception that was thrown. -/
structure Js (α : Type) where
  trace : List Effect
  result : Except JsError α

namespace Js

/-- Return a value without any effect. -/
def ret {α : Type} (a : α) : Js α := ⟨[], .ok a⟩

/-- Sequencing: the second computation runs only if the first did not throw. -/
def andThen {α β : Type} (m : Js α) (f : α → Js β) : Js β :=
  match m.result with
  | .error e => ⟨m.trace, .error e⟩
  | .ok a => ⟨m.trace ++ (f a).trace, (f a).result⟩

instance : Monad Js where
  pure := ret
  bind := andThen

/-- The statement `try m catch (e) h e`: effects performed before the throw stay. -/
def tryCatch {α : Type} (m : Js α) (h : JsError → Js α) : Js α :=
  match m.result with
  | .ok a => ⟨m.trace, .ok a⟩
  | .error e => ⟨m.trace ++ (h e).trace, (h e).result⟩

/-- Use the outcome of a pure operation that may throw. -/
def ofExcept {α : Type} (r : Except JsError α) : Js α := ⟨[], r⟩

/-- Perform an effect whose outcome is `r`. -/
def perform {α : Type} (eff : Effect) (r : Except JsError α) : Js α := ⟨[eff], r⟩

/-- The broadcasts performed. -/
def emits {α : Type} (m : Js α) : List Effect := m.trace.filter Effect.isEmit

/-- The gateway calls performed. -/
def gatewayCalls {α : Type} (m : Js α) : List Effect := m.trace.filter Effect.isGatewayCall

end Js

/-! ## Number operations -/

/-- ECMAScript `ToNumber`; the result is `JsVal.num _` or `JsVal.nan`. -/
def toNumber (env : Env) (v : JsVal) : JsVal :=
  match v with
  | .undefined => .nan
  | .null => .num 0
  | .bool b => .num (if b then 1 else 0)
  | .num q => .num q
  | .nan => .nan
  | .str s => env.stringToNumber s
  | .arr items => env.stringToNumber (JsVal.toStr env.numberToString (.arr items))
  | .obj _ => .nan

/-- The product `v * k` for a numeric literal `k`. -/
def jsMul (env : Env) (v : JsVal) (k : ℚ) : JsVal :=
  match toNumber env v with
  | .num q => .num (q * k)
  | _ => .nan

/-- The quotient `v / k` for a non-zero numeric literal `k`. -/
def jsDiv (env : Env) (v : JsVal) (k : ℚ) : JsVal :=
  match toNumber env v with
  | .num q => .num (q / k)
  | _ => .nan

/-- The function `Math.round` on a finite number: `floor(x + 0.5)`, ties go towards `+∞`. -/
def mathRound (x : ℚ) : ℤ := ⌊x + 1 / 2⌋

/-- The call `Math.round(v)` for a number value `v`. -/
def jsRound (v : JsVal) : JsVal :=
  match v with
  | .num q => .num (mathRound q)
  | _ => .nan

/-- Rounding to the nearest integer with halves rounded away from zero, as the
specification words it: the magnitude is rounded half up and the sign kept. -/
def roundHalfAwayFromZero (x : ℚ) : ℤ :=
  if 0 ≤ x then ⌊x + 1 / 2⌋ else -⌊-x + 1 / 2⌋

/-- The method call `s.toLowerCase()`: only strings have the method. -/
def callToLowerCase (env : Env) (v : JsVal) : Except JsError String :=
  match v with
  | .str s => .ok (env.toLowerCase s)
  | .undefined => .error (typeError "Cannot read properties of undefined (reading toLowerCase)")
  | .null => .error (typeError "Cannot read properties of null (reading toLowerCase)")
  | _ => .error (typeError "currency.toLowerCase is not a function")

/-! ## express-validator -/

/-- One entry of `validationResult(req).array()`. -/
structure ValidationError where
  msg : String
  path : String
  value : JsVal

/-- The JSON form of a validation error. -/
def ValidationError.toJs (e : ValidationError) : JsVal :=
  .obj [("type", .str "field"), ("value", e.value), ("msg", .str e.msg),
        ("path", .str e.path), ("location", .str "body")]

/-- The string handed to a standard validator (`toString` of the library):
`undefined`, `null` and `NaN` become the empty string, everything else is
converted with `ToString`. -/
def stringify (env : Env) (v : JsVal) : String :=
  match v with
  | .undefined => ""
  | .null => ""
  | .nan => ""
  | v => JsVal.toStr env.numberToString v

/-- The values a standard validator is run on: the items of an array, or the
value itself. -/
def validatedValues (v : JsVal) : List JsVal :=
  match v with
  | .arr items => items
  | v => [v]

/-- A standard validator `check` on field `path` with message `msg`: one error
for every validated value whose string form fails the check. -/
def standardValidation (env : Env) (check : String → Bool) (msg path : String)
    (body : JsVal) : List ValidationError :=
  ((validatedValues (body.select path)).filter (fun v => !check (stringify env v))).map
    (fun v => ⟨msg, path, v⟩)

/-- The check of `isNumeric()`: the pattern `^[+-]?([0-9]*[.])?[0-9]+$`. -/
def isNumeric (s : String) : Bool :=
  let unsigned := match s.data with
    | '+' :: rest => rest
    | '-' :: rest => rest
    | cs => cs
  match unsigned.dropWhile Char.isDigit with
  | [] => !(unsigned.takeWhile Char.isDigit).isEmpty
  | '.' :: frac => !frac.isEmpty && frac.all Char.isDigit
  | _ => false

/-- The check of `isLength({ min, max })`: the number of characters lies in
the closed range. -/
def isLength (min max : Nat) (s : String) : Bool :=
  decide (min ≤ s.length) && decide (s.length ≤ max)

/-- The check of `isString()`: `typeof value === 'string'`. -/
def isString (v : JsVal) : Bool :=
  match v with
  | .str _ => true
  | _ => false

/-- Chain `body('amount').isNumeric().withMessage('Amount must be a number')`. -/
def amountErrors (env : Env) (body : JsVal) : List ValidationError :=
  standardValidation env isNumeric "Amount must be a number" "amount" body

/-- Chain `body('currency').isLength({ min: 3, max: 3 })
.withMessage('Currency must be 3 characters')`. -/
def currencyErrors (env : Env) (body : JsVal) : List ValidationError :=
  standardValidation env (isLength 3 3) "Currency must be 3 characters" "currency" body

/-- Chain `body('description').optional().isString()
.withMessage('Description must be a string')`: skipped when the field is
`undefined`. -/
def descriptionErrors (body : JsVal) : List ValidationError :=
  match body.select "description" with
  | .undefined => []
  | v => if isString v then [] else [⟨"Description must be a string", "description", v⟩]

/-- The errors collected by the validators of `POST /create-payment-intent`,
in the order of the chains. -/
def createValidationErrors (env : Env) (body : JsVal) : List ValidationError :=
  amountErrors env body ++ currencyErrors env body ++ descriptionErrors body

/-- The check of `notEmpty()`, the negation of `isEmpty()`: the length of the
string form is not 0. -/
def notEmpty (s : String) : Bool := s.length != 0

/-- The errors collected by the validator of `POST /confirm-payment`:
`body('paymentIntentId').notEmpty().withMessage('Payment intent ID is required')`. -/
def confirmValidationErrors (env : Env) (body : JsVal) : List ValidationError :=
  standardValidation env notEmpty "Payment intent ID is required" "paymentIntentId" body

/-! ## The handlers -/

/-- The value of a destructuring pattern entry `name = dflt`: the default
replaces `undefined` only. -/
def withDefault (dflt : JsVal) (v : JsVal) : JsVal :=
  match v with
  | .undefined => dflt
  | v => v

/-- Reading a property of `req.user`: a `TypeError` when `req.user` is
`undefined`. -/
def reqUser (req : Request) : Except JsError User :=
  match req.user with
  | some u => .ok u
  | none => .error (typeError "Cannot read properties of undefined (reading _id)")

/-- The call `io.to('admin-room')` on `io = req.app.get('socketio')`: a
`TypeError` when the setting is `undefined`. -/
def ioToAdminRoom (req : Request) : Except JsError Unit :=
  if req.socketio then .ok ()
  else .error (typeError "Cannot read properties of undefined (reading to)")

/-- The 500 envelope sent from a `catch` block. -/
def errorEnvelope (message : String) : Response :=
  Response.statusJson 500 (.obj [("success", .bool false), ("message", .str message)])

/-- The 400 envelope sent when `validationResult(req)` is not empty. -/
def validationEnvelope (errors : List ValidationError) : Response :=
  Response.statusJson 400
    (.obj [("success", .bool false), ("errors", .arr (errors.map ValidationError.toJs))])

/-- The argument of `stripe.paymentIntents.create` (lines 31-40). -/
def createParams (env : Env) (amount : JsVal) (lowered : String) (description : JsVal)
    (user : User) : CreateParams where
  amount := jsRound (jsMul env amount 100)
  currency := lowered
  description := description
  metadata := ⟨user._id, user.name, user.email⟩

/-- The payload of the `payment-initiated` broadcast (lines 44-51). -/
def initiatedPayload (env : Env) (user : User) (amount currency : JsVal)
    (paymentIntent : PaymentIntent) : JsVal :=
  .obj [("userId", .str user._id), ("userName", .str user.name), ("amount", amount),
        ("currency", currency), ("paymentIntentId", .str paymentIntent.id),
        ("timestamp", .str env.now)]

/-- The success response of `POST /create-payment-intent` (lines 53-59). -/
def intentCreatedResponse (paymentIntent : PaymentIntent) : Response :=
  Response.json
    (.obj [("success", .bool true),
           ("data", .obj [("clientSecret", .str paymentIntent.client_secret),
                          ("paymentIntentId", .str paymentIntent.id)])])

/-- Handler of `POST /create-payment-intent` (lines 18-68). -/
def createPaymentIntent (env : Env) (req : Request) : Js Response :=
  Js.tryCatch
    (let errors := createValidationErrors env req.body
     if !errors.isEmpty then
       Js.ret (validationEnvelope errors)
     else do
       let amount ← Js.ofExcept (req.body.getProp "amount")
       let currencyField ← Js.ofExcept (req.body.getProp "currency")
       let currency := withDefault (.str "usd") currencyField
       let descriptionField ← Js.ofExcept (req.body.getProp "description")
       let description := withDefault (.str "AutoCare Pro Service Payment") descriptionField
       let lowered ← Js.ofExcept (callToLowerCase env currency)
       let user ← Js.ofExcept (reqUser req)
       let params := createParams env amount lowered description user
       let paymentIntent ← Js.perform (.gatewayCreate params) (env.paymentIntentsCreate params)
       Js.ofExcept (ioToAdminRoom req)
       Js.perform
         (.emit "admin-room" "payment-initiated"
           (initiatedPayload env user amount currency paymentIntent))
         (.ok ())
       Js.ret (intentCreatedResponse paymentIntent))
    (fun _ => Js.ret (errorEnvelope "Error creating payment intent"))

/-- The amount `paymentIntent.amount / 100` reported in major units. -/
def majorUnits (paymentIntent : PaymentIntent) : JsVal :=
  .num ((paymentIntent.amount : ℚ) / 100)

/-- The payload of the `payment-completed` broadcast (lines 93-100). -/
def completedPayload (env : Env) (user : User) (paymentIntent : PaymentIntent) : JsVal :=
  .obj [("userId", .str user._id), ("userName", .str user.name),
        ("amount", majorUnits paymentIntent),
        ("currency", .str paymentIntent.currency),
        ("paymentIntentId", .str paymentIntent.id),
        ("timestamp", .str env.now)]

/-- The success response of `POST /confirm-payment` (lines 102-111). -/
def paymentConfirmedResponse (paymentIntent : PaymentIntent) : Response :=
  Response.json
    (.obj [("success", .bool true),
           ("message", .str "Payment confirmed successfully"),
           ("data", .obj [("paymentIntentId", .str paymentIntent.id),
                          ("amount", majorUnits paymentIntent),
                          ("currency", .str paymentIntent.currency),
                          ("status", .str paymentIntent.status)])])

/-- The response of `POST /confirm-payment` for an intent that has not
succeeded (lines 113-117). -/
def paymentNotCompletedResponse (paymentIntent : PaymentIntent) : Response :=
  Response.statusJson 400
    (.obj [("success", .bool false),
           ("message", .str "Payment not completed"),
           ("status", .str paymentIntent.status)])

/-- Handler of `POST /confirm-payment` (lines 75-127). -/
def confirmPayment (env : Env) (req : Request) : Js Response :=
  Js.tryCatch
    (let errors := confirmValidationErrors env req.body
     if !errors.isEmpty then
       Js.ret (validationEnvelope errors)
     else do
       let paymentIntentId ← Js.ofExcept (req.body.getProp "paymentIntentId")
       let paymentIntent ← Js.perform (.gatewayRetrieve paymentIntentId)
         (env.paymentIntentsRetrieve paymentIntentId)
       if paymentIntent.status = "succeeded" then do
         Js.ofExcept (ioToAdminRoom req)
         let user ← Js.ofExcept (reqUser req)
         Js.perform
           (.emit "admin-room" "payment-completed" (completedPayload env user paymentIntent))
           (.ok ())
         Js.ret (paymentConfirmedResponse paymentIntent)
       else
         Js.ret (paymentNotCompletedResponse paymentIntent))
    (fun _ => Js.ret (errorEnvelope "Error confirming payment"))

/-- The response of `GET /config` (lines 133-138). -/
def configResponse (env : Env) : Response :=
  Response.json
    (.obj [("success", .bool true),
           ("data", .obj [("publishableKey", env.STRIPE_PUBLISHABLE_KEY)])])

/-- Handler of `GET /config` (lines 132-139). -/
def getConfig (env : Env) (_req : Request) : Js Response :=
  Js.ret (configResponse env)

/-- The `try` block of the webhook (lines 150-155): with a truthy secret the
event is what `constructEvent` returns, otherwise it is the body itself. -/
def webhookEvent (env : Env) (req : Request) : Except JsError JsVal :=
  match env.STRIPE_WEBHOOK_SECRET with
  | some endpointSecret =>
    if endpointSecret ≠ "" then
      env.constructEvent req.body req.stripeSignature endpointSecret
    else .ok req.body
  | none => .ok req.body

/-- The payload of the two webhook broadcasts (lines 169-175 and 184-190). -/
def webhookPayload (env : Env) (id amount currency metadata : JsVal) : JsVal :=
  .obj [("paymentIntentId", id), ("amount", jsDiv env amount 100),
        ("currency", currency), ("metadata", metadata),
        ("timestamp", .str env.now)]

/-- The body shared by the two handled cases of the `switch` (lines 164-175 and
179-190): read `event.data.object`, then broadcast `name` to the admins. -/
def webhookBroadcast (env : Env) (req : Request) (event : JsVal) (name : String) : Js Unit := do
  let data ← Js.ofExcept (event.getProp "data")
  let paymentIntent ← Js.ofExcept (data.getProp "object")
  let id ← Js.ofExcept (paymentIntent.getProp "id")
  Js.ofExcept (ioToAdminRoom req)
  let amount ← Js.ofExcept (paymentIntent.getProp "amount")
  let currency ← Js.ofExcept (paymentIntent.getProp "currency")
  let metadata ← Js.ofExcept (paymentIntent.getProp "metadata")
  Js.perform (.emit "admin-room" name (webhookPayload env id amount currency metadata)) (.ok ())

/-- The acknowledgement `res.json({ received: true })` (line 197). -/
def receivedResponse : Response := Response.json (.obj [("received", .bool true)])

/-- Handler of `POST /webhook` (lines 144-198). -/
def webhook (env : Env) (req : Request) : Js Response :=
  match webhookEvent env req with
  | .error err => Js.ret (Response.statusSend 400 ("Webhook Error: " ++ err.message))
  | .ok event => do
    let type ← Js.ofExcept (event.getProp "type")
    if type.strictEqStr "payment_intent.succeeded" then
      webhookBroadcast env req event "payment-webhook-confirmed"
    else if type.strictEqStr "payment_intent.payment_failed" then
      webhookBroadcast env req event "payment-failed"
    else
      pure ()
    Js.ret receivedResponse

/-! ## A concrete environment for the examples -/

/-- A runtime and gateway fragment for the examples: numbers print the way
`Number::toString` prints them on the amounts used below, lower-casing acts on
the ASCII letters, the gateway answers every `create` with a fresh intent and
knows two intents by id, and `constructEvent` accepts one signature. -/
def exampleEnv : Env where
  numberToString := fun q => if q = 4999 / 100 then "49.99" else if q = 10 then "10" else "0"
  stringToNumber := fun s =>
    if s = "49.99" then .num (4999 / 100) else if s = "10" then .num 10 else .nan
  toLowerCase := fun s => String.mk (s.data.map Char.toLower)
  STRIPE_PUBLISHABLE_KEY := .str "pk_test_example"
  STRIPE_WEBHOOK_SECRET := some "whsec_example"
  paymentIntentsCreate := fun p =>
    .ok ⟨"pi_new", "pi_new_secret_abc", 4999, p.currency, "requires_payment_method"⟩
  paymentIntentsRetrieve := fun id =>
    match id with
    | .str s =>
      if s = "pi_paid" then .ok ⟨"pi_paid", "pi_paid_secret_abc", 4999, "usd", "succeeded"⟩
      else if s = "pi_open" then .ok ⟨"pi_open", "pi_open_secret_abc", 4999, "usd", "processing"⟩
      else .error ⟨"No such payment_intent"⟩
    | _ => .error ⟨"No such payment_intent"⟩
  constructEvent := fun body sig _ =>
    match sig with
    | .str s =>
      if s = "t=1,v1=good" then .ok body
      else .error ⟨"No signatures found matching the expected signature for payload"⟩
    | _ => .error ⟨"No stripe-signature header value was provided"⟩
  now := "2025-01-01T00:00:00.000Z"

/-- An authenticated user. -/
def alice : User := ⟨"64b7f0c2a1", "Alice", "alice@example.com"⟩

/-- A value is not numeric for the `amount` chain when one of the values the
`isNumeric()` validator runs on has a string form outside the numeric pattern. -/
def NotNumeric (env : Env) (v : JsVal) : Prop :=
  ∃ x ∈ validatedValues v, isNumeric (stringify env x) = false

/-- A value does not have exactly 3 characters for the `currency` chain when
one of the values the `isLength()` validator runs on has a string form whose
length is not 3. -/
def NotThreeCharacters (env : Env) (v : JsVal) : Prop :=
  ∃ x ∈ validatedValues v, (stringify env x).length ≠ 3

/-- A body with a numeric amount and no currency field. -/
def missingCurrencyRequest : Request :=
  ⟨.obj [("amount", .num 10)], some alice, .undefined, true⟩

/-- The intent the example gateway knows as paid. -/
def paidIntent : PaymentIntent := ⟨"pi_paid", "pi_paid_secret_abc", 4999, "usd", "succeeded"⟩

/-- The intent the example gateway knows as still processing. -/
def openIntent : PaymentIntent := ⟨"pi_open", "pi_open_secret_abc", 4999, "usd", "processing"⟩

/-- Confirmation of the paid intent by an authenticated caller. -/
def paidConfirmRequest : Request :=
  ⟨.obj [("paymentIntentId", .str "pi_paid")], some alice, .undefined, true⟩

/-- Confirmation of the intent that is still processing. -/
def openConfirmRequest : Request :=
  ⟨.obj [("paymentIntentId", .str "pi_open")], some alice, .undefined, true⟩

/-- Confirmation of the paid intent while no socket server is registered. -/
def noSocketConfirmRequest : Request :=
  ⟨.obj [("paymentIntentId", .str "pi_paid")], some alice, .undefined, false⟩

/-- Confirmation of the paid intent by a request without `req.user`. -/
def anonymousConfirmRequest : Request :=
  ⟨.obj [("paymentIntentId", .str "pi_paid")], none, .undefined, true⟩

/-- A `GET /config` request without `req.user`. -/
def anonymousConfigRequest : Request := ⟨.undefined, none, .undefined, true⟩

/-- A Stripe event of type `payment_intent.succeeded` for the paid intent. -/
def succeededEvent : JsVal :=
  .obj [("type", .str "payment_intent.succeeded"),
        ("data", .obj [("object",
          .obj [("id", .str "pi_paid"), ("amount", .num 4999), ("currency", .str "usd"),
                ("metadata", .obj [("userId", .str "64b7f0c2a1")])])])]

/-- A webhook request carrying the succeeded event under a forged signature. -/
def forgedWebhookRequest : Request := ⟨succeededEvent, none, .str "t=1,v1=forged", true⟩

/-- A Stripe event of a type the router does not handle. -/
def refundEvent : JsVal :=
  .obj [("type", .str "charge.refunded"), ("data", .obj [("object", .obj [("id", .str "ch_1")])])]

/-- A webhook request carrying the refund event under a valid signature. -/
def refundWebhookRequest : Request := ⟨refundEvent, none, .str "t=1,v1=good", true⟩

/-- A webhook request carrying the succeeded event under a valid signature. -/
def succeededWebhookRequest : Request := ⟨succeededEvent, none, .str "t=1,v1=good", true⟩

/-- A verified event of type `payment_intent.succeeded` without `data`. -/
def missingDataWebhookRequest : Request :=
  ⟨.obj [("type", .str "payment_intent.succeeded")], none, .str "t=1,v1=good", true⟩

/-- The example environment with no webhook secret configured. -/
def noSecretEnv : Env := { exampleEnv with STRIPE_WEBHOOK_SECRET := none }

/-- An unsigned request whose parsed body is an event of type
`payment_intent.succeeded` without `data`. -/
def unsignedMissingDataRequest : Request :=
  ⟨.obj [("type", .str "payment_intent.succeeded")], none, .undefined, true⟩

/-- A verified, complete succeeded event received while no socket server is
registered. -/
def noSocketWebhookRequest : Request := ⟨succeededEvent, none, .str "t=1,v1=good", false⟩

/-! ## Basic facts -/

@[simp] theorem Js.bind_eq_andThen {α β : Type} (m : Js α) (f : α → Js β) :
    (m >>= f) = Js.andThen m f := rfl

@[simp] theorem Js.pure_eq_ret {α : Type} (a : α) : (pure a : Js α) = Js.ret a := rfl

@[simp] theorem Js.ret_andThen {α β : Type} (a : α) (f : α → Js β) :
    (Js.ret a).andThen f = f a := by
  simp [Js.ret, Js.andThen]

@[simp] theorem Js.ofExcept_ok_andThen {α β : Type} (a : α) (f : α → Js β) :
    (Js.ofExcept (.ok a)).andThen f = f a := by
  simp [Js.ofExcept, Js.andThen]

@[simp] theorem Js.ofExcept_error_andThen {α β : Type} (e : JsError) (f : α → Js β) :
    (Js.ofExcept (.error e)).andThen f = ⟨[], .error e⟩ := by
  simp [Js.ofExcept, Js.andThen]

@[simp] theorem Js.perform_ok_andThen {α β : Type} (eff : Effect) (a : α) (f : α → Js β) :
    (Js.perform eff (.ok a)).andThen f = ⟨eff :: (f a).trace, (f a).result⟩ := by
  simp [Js.perform, Js.andThen]

@[simp] theorem Js.perform_error_andThen {α β : Type} (eff : Effect) (e : JsError)
    (f : α → Js β) : (Js.perform eff (.error e)).andThen f = ⟨[eff], .error e⟩ := by
  simp [Js.perform, Js.andThen]

@[simp] theorem Js.mk_ok_andThen {α β : Type} (t : List Effect) (a : α) (f : α → Js β) :
    Js.andThen ⟨t, .ok a⟩ f = ⟨t ++ (f a).trace, (f a).result⟩ := by
  simp [Js.andThen]

@[simp] theorem Js.mk_error_andThen {α β : Type} (t : List Effect) (e : JsError)
    (f : α → Js β) : Js.andThen ⟨t, .error e⟩ f = ⟨t, .error e⟩ := by
  simp [Js.andThen]

@[simp] theorem Js.tryCatch_ok {α : Type} (t : List Effect) (a : α) (h : JsError → Js α) :
    Js.tryCatch ⟨t, .ok a⟩ h = ⟨t, .ok a⟩ := by
  simp [Js.tryCatch]

@[simp] theorem Js.tryCatch_error {α : Type} (t : List Effect) (e : JsError)
    (h : JsError → Js α) :
    Js.tryCatch ⟨t, .error e⟩ h = ⟨t ++ (h e).trace, (h e).result⟩ := by
  simp [Js.tryCatch]

/-- A `try` whose `catch` block always answers never throws. -/
theorem Js.tryCatch_answers {α : Type} (m : Js α) (a : α) :
    ∃ r, (Js.tryCatch m (fun _ => Js.ret a)).result = .ok r := by
  unfold Js.tryCatch
  cases m.result <;> simp [Js.ret]

/-- A body that raises no error in a standard validator rejecting the empty
string is an object, so property reads on it do not throw. -/
theorem getProp_of_standardValidation_nil (env : Env) (check : String → Bool) (msg path : String)
    (body : JsVal) (hempty : check "" = false)
    (h : standardValidation env check msg path body = []) (k : String) :
    body.getProp k = .ok (body.select k) := by
  cases body <;>
    simp_all [standardValidation, JsVal.select, JsVal.getProp, validatedValues, stringify]

/-- The result of `roundHalfAwayFromZero` is a nearest integer. -/
theorem roundHalfAwayFromZero_nearest (x : ℚ) :
    |(roundHalfAwayFromZero x : ℚ) - x| ≤ 1 / 2 := by
  unfold roundHalfAwayFromZero
  split
  · have h1 := Int.floor_le (x + 1 / 2)
    have h2 := Int.lt_floor_add_one (x + 1 / 2)
    rw [abs_le]; constructor <;> linarith
  · have h1 := Int.floor_le (-x + 1 / 2)
    have h2 := Int.lt_floor_add_one (-x + 1 / 2)
    push_cast
    rw [abs_le]; constructor <;> linarith

/-- On a negative half `Math.round` rounds towards `+∞`, not away from zero. -/
theorem mathRound_negative_half :
    mathRound (-1 / 2) = 0 ∧ roundHalfAwayFromZero (-1 / 2) = -1 := by
  constructor
  · norm_num [mathRound, Int.floor_eq_iff]
  · norm_num [roundHalfAwayFromZero, Int.floor_eq_iff]

/-! ## The paths through `POST /create-payment-intent` -/

/-- A request that fails validation is answered with the 400 envelope before
anything else happens. -/
theorem createPaymentIntent_invalid (env : Env) (req : Request)
    (h : createValidationErrors env req.body ≠ []) :
    createPaymentIntent env req
      = ⟨[], .ok (validationEnvelope (createValidationErrors env req.body))⟩ := by
  simp [createPaymentIntent, h, Js.ret]

/-- A body that passes validation is an object: its properties can be read. -/
theorem getProp_of_create_valid (env : Env) (req : Request)
    (hvalid : createValidationErrors env req.body = []) (k : String) :
    req.body.getProp k = .ok (req.body.select k) := by
  have h : amountErrors env req.body = [] := by
    simp [createValidationErrors] at hvalid; exact hvalid.1
  exact getProp_of_standardValidation_nil env isNumeric _ _ _ (by decide) h k

/-- Valid request, currency without `toLowerCase`: 500 before the gateway. -/
theorem createPaymentIntent_not_lowerable (env : Env) (req : Request) (e : JsError)
    (hvalid : createValidationErrors env req.body = [])
    (hlower : callToLowerCase env (withDefault (.str "usd") (req.body.select "currency"))
      = .error e) :
    createPaymentIntent env req = ⟨[], .ok (errorEnvelope "Error creating payment intent")⟩ := by
  simp [createPaymentIntent, hvalid, getProp_of_create_valid env req hvalid, hlower, Js.ret]

/-- Valid request without `req.user`: 500 before the gateway. -/
theorem createPaymentIntent_anonymous (env : Env) (req : Request)
    (hvalid : createValidationErrors env req.body = []) (huser : req.user = none) :
    createPaymentIntent env req = ⟨[], .ok (errorEnvelope "Error creating payment intent")⟩ := by
  cases hlower : callToLowerCase env (withDefault (.str "usd") (req.body.select "currency")) with
  | error e => exact createPaymentIntent_not_lowerable env req e hvalid hlower
  | ok lowered =>
    simp [createPaymentIntent, hvalid, getProp_of_create_valid env req hvalid, hlower, reqUser,
      huser, Js.ret]

/-- A currency string that passes validation has exactly 3 characters. -/
theorem currency_length_of_valid (env : Env) (req : Request) (c : String)
    (hvalid : createValidationErrors env req.body = [])
    (hcurrency : req.body.select "currency" = .str c) : c.length = 3 := by
  have h : currencyErrors env req.body = [] := by
    simp [createValidationErrors] at hvalid; exact hvalid.2.1
  simp [currencyErrors, standardValidation, hcurrency, validatedValues, stringify, JsVal.toStr,
    isLength] at h
  omega

/-- A missing, `null`, boolean or object amount is not numeric, and neither is
a string outside the numeric pattern. -/
theorem notNumeric_cases (env : Env) :
    NotNumeric env .undefined ∧ NotNumeric env .null ∧ (∀ b, NotNumeric env (.bool b)) ∧
    (∀ props, NotNumeric env (.obj props)) ∧
    (∀ s, isNumeric s = false → NotNumeric env (.str s)) := by
  refine ⟨⟨.undefined, ?_, ?_⟩, ⟨.null, ?_, ?_⟩, fun b => ⟨.bool b, ?_, ?_⟩,
    fun props => ⟨.obj props, ?_, ?_⟩, fun s hs => ⟨.str s, ?_, ?_⟩⟩
  all_goals first
    | exact List.mem_singleton.mpr rfl
    | (simp only [stringify, JsVal.toStr]; first | exact hs | decide | (cases b <;> decide))

/-- A missing, `null`, boolean or object currency does not have 3 characters,
and neither does a string of another length. -/
theorem notThreeCharacters_cases (env : Env) :
    NotThreeCharacters env .undefined ∧ NotThreeCharacters env .null ∧
    (∀ b, NotThreeCharacters env (.bool b)) ∧ (∀ props, NotThreeCharacters env (.obj props)) ∧
    (∀ s, s.length ≠ 3 → NotThreeCharacters env (.str s)) := by
  refine ⟨⟨.undefined, ?_, ?_⟩, ⟨.null, ?_, ?_⟩, fun b => ⟨.bool b, ?_, ?_⟩,
    fun props => ⟨.obj props, ?_, ?_⟩, fun s hs => ⟨.str s, ?_, ?_⟩⟩
  all_goals first
    | exact List.mem_singleton.mpr rfl
    | (simp only [stringify, JsVal.toStr]; first | exact hs | decide | (cases b <;> decide))

/-- Claim C9, evaluated on the code: a body with a numeric amount and no
currency field does not pass validation. In every environment the handler
performs no effect and answers 400 with a non-empty list of errors that
contains "Currency must be 3 characters"; the default "usd" is never used. -/
theorem create_payment_intent_missing_currency_rejected (env : Env) :
    createPaymentIntent env missingCurrencyRequest
      = ⟨[], .ok (validationEnvelope (createValidationErrors env missingCurrencyRequest.body))⟩ ∧
    (createValidationErrors env missingCurrencyRequest.body).map (fun e => e.msg)
      = (amountErrors env missingCurrencyRequest.body).map (fun e => e.msg)
        ++ ["Currency must be 3 characters"] ∧
    (validationEnvelope (createValidationErrors env missingCurrencyRequest.body)).status = 400 := by
  have hcur : currencyErrors env missingCurrencyRequest.body
      = [⟨"Currency must be 3 characters", "currency", .undefined⟩] := by
    simp [currencyErrors, standardValidation, missingCurrencyRequest, JsVal.select, List.lookup,
      validatedValues, stringify, isLength]
  have hdesc : descriptionErrors missingCurrencyRequest.body = [] := by
    simp [descriptionErrors, missingCurrencyRequest, JsVal.select, List.lookup]
  refine ⟨createPaymentIntent_invalid env _ ?_, ?_, rfl⟩
  · simp [createValidationErrors, hcur]
  · simp [createValidationErrors, hcur, hdesc]

/-! ## The paths through `POST /confirm-payment` -/

/-- A request that fails validation is answered with the 400 envelope before
anything else happens. -/
theorem confirmPayment_invalid (env : Env) (req : Request)
    (h : confirmValidationErrors env req.body ≠ []) :
    confirmPayment env req
      = ⟨[], .ok (validationEnvelope (confirmValidationErrors env req.body))⟩ := by
  simp [confirmPayment, h, Js.ret]

/-- A body that passes validation is an object: its properties can be read. -/
theorem getProp_of_confirm_valid (env : Env) (req : Request)
    (hvalid : confirmValidationErrors env req.body = []) (k : String) :
    req.body.getProp k = .ok (req.body.select k) :=
  getProp_of_standardValidation_nil env notEmpty _ _ _ (by decide) hvalid k

/-- Valid request, gateway failure: one gateway call, then 500. -/
theorem confirmPayment_gateway_error (env : Env) (req : Request) (e : JsError)
    (hvalid : confirmValidationErrors env req.body = [])
    (hretrieve : env.paymentIntentsRetrieve (req.body.select "paymentIntentId") = .error e) :
    confirmPayment env req
      = ⟨[.gatewayRetrieve (req.body.select "paymentIntentId")],
         .ok (errorEnvelope "Error confirming payment")⟩ := by
  simp [confirmPayment, hvalid, getProp_of_confirm_valid env req hvalid, hretrieve, Js.ret]

/-- Valid request, intent not succeeded: one gateway call, then the 400
response carrying the status. -/
theorem confirmPayment_not_succeeded (env : Env) (req : Request) (paymentIntent : PaymentIntent)
    (hvalid : confirmValidationErrors env req.body = [])
    (hretrieve : env.paymentIntentsRetrieve (req.body.select "paymentIntentId")
      = .ok paymentIntent)
    (hstatus : paymentIntent.status ≠ "succeeded") :
    confirmPayment env req
      = ⟨[.gatewayRetrieve (req.body.select "paymentIntentId")],
         .ok (paymentNotCompletedResponse paymentIntent)⟩ := by
  simp [confirmPayment, hvalid, getProp_of_confirm_valid env req hvalid, hretrieve, hstatus,
    Js.ret]

/-- Valid request, intent succeeded, no socket server: one gateway call, then
500. -/
theorem confirmPayment_no_socket (env : Env) (req : Request) (paymentIntent : PaymentIntent)
    (hvalid : confirmValidationErrors env req.body = [])
    (hretrieve : env.paymentIntentsRetrieve (req.body.select "paymentIntentId")
      = .ok paymentIntent)
    (hstatus : paymentIntent.status = "succeeded") (hio : req.socketio = false) :
    confirmPayment env req
      = ⟨[.gatewayRetrieve (req.body.select "paymentIntentId")],
         .ok (errorEnvelope "Error confirming payment")⟩ := by
  simp [confirmPayment, hvalid, getProp_of_confirm_valid env req hvalid, hretrieve, hstatus,
    hio, ioToAdminRoom, Js.ret]

/-- Valid request, intent succeeded, no `req.user`: one gateway call, then
500. -/
theorem confirmPayment_anonymous (env : Env) (req : Request) (paymentIntent : PaymentIntent)
    (hvalid : confirmValidationErrors env req.body = [])
    (hretrieve : env.paymentIntentsRetrieve (req.body.select "paymentIntentId")
      = .ok paymentIntent)
    (hstatus : paymentIntent.status = "succeeded") (huser : req.user = none) :
    confirmPayment env req
      = ⟨[.gatewayRetrieve (req.body.select "paymentIntentId")],
         .ok (errorEnvelope "Error confirming payment")⟩ := by
  cases hio : req.socketio with
  | false => exact confirmPayment_no_socket env req paymentIntent hvalid hretrieve hstatus hio
  | true =>
    simp [confirmPayment, hvalid, getProp_of_confirm_valid env req hvalid, hretrieve, hstatus,
      hio, ioToAdminRoom, huser, reqUser, Js.ret]

/-- Valid request, intent succeeded, authenticated caller, socket server
present: the gateway call, the broadcast and the 200 response. -/
theorem confirmPayment_success (env : Env) (req : Request) (paymentIntent : PaymentIntent)
    (user : User)
    (hvalid : confirmValidationErrors env req.body = [])
    (hretrieve : env.paymentIntentsRetrieve (req.body.select "paymentIntentId")
      = .ok paymentIntent)
    (hstatus : paymentIntent.status = "succeeded")
    (huser : req.user = some user) (hio : req.socketio = true) :
    confirmPayment env req
      = ⟨[.gatewayRetrieve (req.body.select "paymentIntentId"),
          .emit "admin-room" "payment-completed" (completedPayload env user paymentIntent)],
         .ok (paymentConfirmedResponse paymentIntent)⟩ := by
  simp [confirmPayment, hvalid, getProp_of_confirm_valid env req hvalid, hretrieve, hstatus,
    hio, ioToAdminRoom, huser, reqUser, Js.ret]

/-! ## Claims about `POST /confirm-payment` -/

/-- The example confirmation bodies pass validation. -/
theorem confirm_examples_valid :
    confirmValidationErrors exampleEnv paidConfirmRequest.body = [] ∧
    confirmValidationErrors exampleEnv openConfirmRequest.body = [] ∧
    confirmValidationErrors exampleEnv noSocketConfirmRequest.body = [] ∧
    confirmValidationErrors exampleEnv anonymousConfirmRequest.body = [] := by
  refine ⟨?_, ?_, ?_, ?_⟩ <;>
    simp [confirmValidationErrors, standardValidation, JsVal.select, List.lookup,
      validatedValues, stringify, JsVal.toStr, notEmpty, paidConfirmRequest, openConfirmRequest,
      noSocketConfirmRequest, anonymousConfirmRequest] <;>
    decide

/-- The example gateway returns the paid intent for "pi_paid" and the open
intent for "pi_open". -/
theorem example_retrieve :
    exampleEnv.paymentIntentsRetrieve (.str "pi_paid") = .ok paidIntent ∧
    exampleEnv.paymentIntentsRetrieve (.str "pi_open") = .ok openIntent := by
  constructor <;> simp [exampleEnv, paidIntent, openIntent]

/-- Claim C6, as amended. For every `POST /confirm-payment` request sent by an
authenticated caller while the socket server is registered, whose body passes
validation (non-empty `paymentIntentId`) and whose retrieved intent has status
"succeeded": the response is the 200 success payload whose `amount` is the
amount of the intent divided by 100 and whose `paymentIntentId`, `currency`
and `status` are those of the intent, and exactly one broadcast is emitted,
`payment-completed` to the admin room, carrying the same `paymentIntentId`. -/
theorem confirm_payment_succeeded (env : Env) (req : Request) (pi : PaymentIntent)
    (user : User)
    (hvalid : confirmValidationErrors env req.body = [])
    (hretrieve : env.paymentIntentsRetrieve (req.body.select "paymentIntentId") = .ok pi)
    (hstatus : pi.status = "succeeded")
    (huser : req.user = some user) (hio : req.socketio = true) :
    ∃ resp payload,
      (confirmPayment env req).result = .ok resp ∧ resp.status = 200 ∧
      resp.jsonBody.at ["success"] = .bool true ∧
      resp.jsonBody.at ["data", "amount"] = .num ((pi.amount : ℚ) / 100) ∧
      resp.jsonBody.at ["data", "paymentIntentId"] = .str pi.id ∧
      resp.jsonBody.at ["data", "currency"] = .str pi.currency ∧
      resp.jsonBody.at ["data", "status"] = .str pi.status ∧
      (confirmPayment env req).emits = [.emit "admin-room" "payment-completed" payload] ∧
      payload.at ["paymentIntentId"] = .str pi.id := by
  refine ⟨paymentConfirmedResponse pi, completedPayload env user pi, ?_⟩
  rw [confirmPayment_success env req pi user hvalid hretrieve hstatus huser hio]
  simp [paymentConfirmedResponse, completedPayload, majorUnits, Response.json, Response.jsonBody,
    JsVal.at, JsVal.select, List.lookup, Js.emits, Effect.isEmit]

/-- Witness of C6 as amended: the paid intent confirmed by Alice. -/
theorem confirm_payment_succeeded_witness :
    ∃ resp payload,
      (confirmPayment exampleEnv paidConfirmRequest).result = .ok resp ∧ resp.status = 200 ∧
      resp.jsonBody.at ["success"] = .bool true ∧
      resp.jsonBody.at ["data", "amount"] = .num (((4999 : ℤ) : ℚ) / 100) ∧
      resp.jsonBody.at ["data", "paymentIntentId"] = .str "pi_paid" ∧
      resp.jsonBody.at ["data", "currency"] = .str "usd" ∧
      resp.jsonBody.at ["data", "status"] = .str "succeeded" ∧
      (confirmPayment exampleEnv paidConfirmRequest).emits
        = [.emit "admin-room" "payment-completed" payload] ∧
      payload.at ["paymentIntentId"] = .str "pi_paid" :=
  confirm_payment_succeeded exampleEnv paidConfirmRequest paidIntent alice
    confirm_examples_valid.1 example_retrieve.1 rfl rfl rfl

/-- Claim C6 as stated fails: the intent retrieved for the two requests has
status "succeeded" and their bodies pass validation, yet without a socket
server, and likewise without `req.user`, the handler answers with the 500
envelope and emits no broadcast. -/
theorem succeeded_intent_without_socket_or_user :
    confirmValidationErrors exampleEnv noSocketConfirmRequest.body = [] ∧
    confirmValidationErrors exampleEnv anonymousConfirmRequest.body = [] ∧
    exampleEnv.paymentIntentsRetrieve (noSocketConfirmRequest.body.select "paymentIntentId")
      = .ok paidIntent ∧
    exampleEnv.paymentIntentsRetrieve (anonymousConfirmRequest.body.select "paymentIntentId")
      = .ok paidIntent ∧
    paidIntent.status = "succeeded" ∧
    (confirmPayment exampleEnv noSocketConfirmRequest).result
      = .ok ⟨500, .json (.obj [("success", .bool false),
          ("message", .str "Error confirming payment")])⟩ ∧
    (confirmPayment exampleEnv noSocketConfirmRequest).emits = [] ∧
    (confirmPayment exampleEnv anonymousConfirmRequest).result
      = .ok ⟨500, .json (.obj [("success", .bool false),
          ("message", .str "Error confirming payment")])⟩ ∧
    (confirmPayment exampleEnv anonymousConfirmRequest).emits = [] := by
  have h1 : exampleEnv.paymentIntentsRetrieve
      (noSocketConfirmRequest.body.select "paymentIntentId") = .ok paidIntent :=
    example_retrieve.1
  have h2 : exampleEnv.paymentIntentsRetrieve
      (anonymousConfirmRequest.body.select "paymentIntentId") = .ok paidIntent :=
    example_retrieve.1
  refine ⟨confirm_examples_valid.2.2.1, confirm_examples_valid.2.2.2, h1, h2, rfl, ?_, ?_, ?_, ?_⟩
  · rw [confirmPayment_no_socket exampleEnv _ paidIntent confirm_examples_valid.2.2.1 h1 rfl rfl]
    rfl
  · rw [confirmPayment_no_socket exampleEnv _ paidIntent confirm_examples_valid.2.2.1 h1 rfl rfl]
    rfl
  · rw [confirmPayment_anonymous exampleEnv _ paidIntent confirm_examples_valid.2.2.2 h2 rfl rfl]
    rfl
  · rw [confirmPayment_anonymous exampleEnv _ paidIntent confirm_examples_valid.2.2.2 h2 rfl rfl]
    rfl

/-- Claim C7. For every `POST /confirm-payment` request whose body passes
validation (non-empty `paymentIntentId`) and whose retrieved intent has a
status other than "succeeded": the response has status 400, carries the
current status of the intent, and no broadcast is emitted. -/
theorem confirm_payment_not_succeeded (env : Env) (req : Request) (pi : PaymentIntent)
    (hvalid : confirmValidationErrors env req.body = [])
    (hretrieve : env.paymentIntentsRetrieve (req.body.select "paymentIntentId") = .ok pi)
    (hstatus : pi.status ≠ "succeeded") :
    ∃ resp,
      (confirmPayment env req).result = .ok resp ∧ resp.status = 400 ∧
      resp.jsonBody.at ["success"] = .bool false ∧
      resp.jsonBody.at ["status"] = .str pi.status ∧
      (confirmPayment env req).emits = [] := by
  refine ⟨paymentNotCompletedResponse pi, ?_⟩
  rw [confirmPayment_not_succeeded env req pi hvalid hretrieve hstatus]
  simp [paymentNotCompletedResponse, Response.statusJson, Response.jsonBody, JsVal.at,
    JsVal.select, List.lookup, Js.emits, Effect.isEmit]

/-- Witness of C7: the intent that is still processing. -/
theorem confirm_payment_not_succeeded_witness :
    openIntent.status ≠ "succeeded" ∧
    ∃ resp,
      (confirmPayment exampleEnv openConfirmRequest).result = .ok resp ∧ resp.status = 400 ∧
      resp.jsonBody.at ["success"] = .bool false ∧
      resp.jsonBody.at ["status"] = .str "processing" ∧
      (confirmPayment exampleEnv openConfirmRequest).emits = [] :=
  ⟨by decide, confirm_payment_not_succeeded exampleEnv openConfirmRequest openIntent
    confirm_examples_valid.2.1 example_retrieve.2 (by decide)⟩

/-! ## Authentication -/

/-- Without `req.user`, `POST /create-payment-intent` performs no effect: it
answers 400 on a validation failure, and otherwise the read of `req.user._id`
throws before the gateway is called. -/
theorem createPaymentIntent_anonymous_no_effect (env : Env) (req : Request)
    (huser : req.user = none) : (createPaymentIntent env req).trace = [] := by
  by_cases hvalid : createValidationErrors env req.body = []
  · rw [createPaymentIntent_anonymous env req hvalid huser]
  · rw [createPaymentIntent_invalid env req hvalid]

/-- Without `req.user`, `POST /confirm-payment` emits no broadcast. -/
theorem confirmPayment_anonymous_no_emit (env : Env) (req : Request)
    (huser : req.user = none) : (confirmPayment env req).emits = [] := by
  by_cases hvalid : confirmValidationErrors env req.body = []
  · cases hretrieve : env.paymentIntentsRetrieve (req.body.select "paymentIntentId") with
    | error e =>
      rw [confirmPayment_gateway_error env req e hvalid hretrieve]
      simp [Js.emits, Effect.isEmit]
    | ok pi =>
      by_cases hstatus : pi.status = "succeeded"
      · rw [confirmPayment_anonymous env req pi hvalid hretrieve hstatus huser]
        simp [Js.emits, Effect.isEmit]
      · rw [confirmPayment_not_succeeded env req pi hvalid hretrieve hstatus]
        simp [Js.emits, Effect.isEmit]
  · rw [confirmPayment_invalid env req hvalid]
    simp [Js.emits]

/-- Claim C3, evaluated on the code: no route of the router checks `req.user`.
For a request without an authenticated user, `GET /config` answers 200 with
the publishable key, and `POST /confirm-payment` calls the gateway
(`paymentIntents.retrieve`) before it fails with the 500 envelope. -/
theorem private_routes_do_not_check_user :
    anonymousConfigRequest.user = none ∧ anonymousConfirmRequest.user = none ∧
    (getConfig exampleEnv anonymousConfigRequest).result
      = .ok ⟨200, .json (.obj [("success", .bool true),
          ("data", .obj [("publishableKey", .str "pk_test_example")])])⟩ ∧
    (confirmPayment exampleEnv anonymousConfirmRequest).gatewayCalls
      = [.gatewayRetrieve (.str "pi_paid")] := by
  refine ⟨rfl, rfl, rfl, ?_⟩
  have h : exampleEnv.paymentIntentsRetrieve
      (anonymousConfirmRequest.body.select "paymentIntentId") = .ok paidIntent :=
    example_retrieve.1
  rw [confirmPayment_anonymous exampleEnv _ paidIntent confirm_examples_valid.2.2.2 h rfl rfl]
  simp [Js.gatewayCalls, Effect.isGatewayCall, anonymousConfirmRequest, JsVal.select, List.lookup]

/-! ## Claims about `POST /webhook` -/

/-- With no secret configured the event is the body of the request. -/
theorem webhookEvent_without_secret (env : Env) (req : Request)
    (h : env.STRIPE_WEBHOOK_SECRET = none) : webhookEvent env req = .ok req.body := by
  simp [webhookEvent, h]

/-- With a secret configured the event is the outcome of `constructEvent`. -/
theorem webhookEvent_with_secret (env : Env) (req : Request) (secret : String)
    (h : env.STRIPE_WEBHOOK_SECRET = some secret) (hne : secret ≠ "") :
    webhookEvent env req = env.constructEvent req.body req.stripeSignature secret := by
  simp [webhookEvent, h, hne]

/-- Claim C4. For every webhook request received while a webhook secret is
configured: if signature verification fails, the handler performs no effect
(neither the succeeded nor the failed case runs, so neither
`payment-webhook-confirmed` nor `payment-failed` is broadcast) and answers
with status 400. -/
theorem webhook_rejects_invalid_signature (env : Env) (req : Request) (secret : String)
    (err : JsError)
    (hsecret : env.STRIPE_WEBHOOK_SECRET = some secret) (hne : secret ≠ "")
    (hverify : env.constructEvent req.body req.stripeSignature secret = .error err) :
    webhook env req = ⟨[], .ok ⟨400, .text ("Webhook Error: " ++ err.message)⟩⟩ := by
  have h : webhookEvent env req = .error err := by
    rw [webhookEvent_with_secret env req secret hsecret hne, hverify]
  simp [webhook, h, Js.ret, Response.statusSend]

/-- Witness of C4: a forged signature. -/
theorem webhook_rejects_invalid_signature_witness :
    exampleEnv.STRIPE_WEBHOOK_SECRET = some "whsec_example" ∧
    webhook exampleEnv forgedWebhookRequest
      = ⟨[], .ok ⟨400, .text ("Webhook Error: " ++
          "No signatures found matching the expected signature for payload")⟩⟩ :=
  ⟨rfl, webhook_rejects_invalid_signature exampleEnv forgedWebhookRequest "whsec_example"
    ⟨"No signatures found matching the expected signature for payload"⟩ rfl (by decide)
    (by simp [exampleEnv, forgedWebhookRequest])⟩

/-- Claim C8. For every webhook request whose event is accepted (it passed
verification, or no secret is configured and the event is the body) and whose
`event.type` is neither `payment_intent.succeeded` nor
`payment_intent.payment_failed` (an absent type, `undefined`, included): the
handler performs no effect, so no broadcast is emitted, and answers 200 with
`{received: true}`. -/
theorem webhook_acknowledges_unrecognized_type (env : Env) (req : Request) (event type : JsVal)
    (hevent : webhookEvent env req = .ok event)
    (htype : event.getProp "type" = .ok type)
    (hsucceeded : type.strictEqStr "payment_intent.succeeded" = false)
    (hfailed : type.strictEqStr "payment_intent.payment_failed" = false) :
    webhook env req = ⟨[], .ok ⟨200, .json (.obj [("received", .bool true)])⟩⟩ := by
  simp [webhook, hevent, htype, hsucceeded, hfailed, Js.ret, receivedResponse, Response.json]

/-- Witness of C8: a verified `charge.refunded` event. -/
theorem webhook_acknowledges_unrecognized_type_witness :
    webhookEvent exampleEnv refundWebhookRequest = .ok refundEvent ∧
    webhook exampleEnv refundWebhookRequest
      = ⟨[], .ok ⟨200, .json (.obj [("received", .bool true)])⟩⟩ :=
  have h : webhookEvent exampleEnv refundWebhookRequest = .ok refundEvent := by
    simp [webhookEvent, exampleEnv, refundWebhookRequest]
  ⟨h, webhook_acknowledges_unrecognized_type exampleEnv refundWebhookRequest refundEvent
    (.str "charge.refunded") h
    (by simp [refundEvent, JsVal.getProp, List.lookup])
    (by simp [JsVal.strictEqStr]) (by simp [JsVal.strictEqStr])⟩

/-- A verified `payment_intent.succeeded` event is broadcast once to the admin
room, with the amount in major units, and acknowledged. -/
theorem webhook_succeeded_scenario :
    webhook exampleEnv succeededWebhookRequest
      = ⟨[.emit "admin-room" "payment-webhook-confirmed"
            (.obj [("paymentIntentId", .str "pi_paid"), ("amount", .num (4999 / 100)),
                   ("currency", .str "usd"),
                   ("metadata", .obj [("userId", .str "64b7f0c2a1")]),
                   ("timestamp", .str "2025-01-01T00:00:00.000Z")])],
         .ok ⟨200, .json (.obj [("received", .bool true)])⟩⟩ := by
  have h : webhookEvent exampleEnv succeededWebhookRequest = .ok succeededEvent := by
    simp [webhookEvent, exampleEnv, succeededWebhookRequest]
  have hio : succeededWebhookRequest.socketio = true := rfl
  have hnow : exampleEnv.now = "2025-01-01T00:00:00.000Z" := rfl
  simp [webhook, h, webhookBroadcast, succeededEvent, JsVal.getProp, JsVal.strictEqStr,
    List.lookup, ioToAdminRoom, hio, webhookPayload, jsDiv, toNumber, hnow, Js.ret,
    receivedResponse, Response.json, Js.perform]

/-! ## Error handling -/

/-- The handler of `POST /create-payment-intent` always answers. -/
theorem createPaymentIntent_answers (env : Env) (req : Request) :
    ∃ resp, (createPaymentIntent env req).result = .ok resp := by
  unfold createPaymentIntent
  exact Js.tryCatch_answers _ _

/-- The handler of `POST /confirm-payment` always answers. -/
theorem confirmPayment_answers (env : Env) (req : Request) :
    ∃ resp, (confirmPayment env req).result = .ok resp := by
  unfold confirmPayment
  exact Js.tryCatch_answers _ _

/-- The handler of `GET /config` always answers. -/
theorem getConfig_answers (env : Env) (req : Request) :
    ∃ resp, (getConfig env req).result = .ok resp :=
  ⟨configResponse env, rfl⟩

/-- Claim C5, evaluated on the code: the `switch` of the webhook handler runs
outside its `try` block. An accepted event of a handled type that lacks
`data.object` (verified under the configured secret, or taken from the body
when no secret is configured) makes the handler throw a `TypeError` instead of
answering, and so does a complete verified event when no socket server is
registered. -/
theorem webhook_dispatch_errors_escape :
    webhookEvent exampleEnv missingDataWebhookRequest
      = .ok (.obj [("type", .str "payment_intent.succeeded")]) ∧
    webhook exampleEnv missingDataWebhookRequest
      = ⟨[], .error (typeError "Cannot read properties of undefined (reading object)")⟩ ∧
    webhookEvent noSecretEnv unsignedMissingDataRequest
      = .ok (.obj [("type", .str "payment_intent.succeeded")]) ∧
    webhook noSecretEnv unsignedMissingDataRequest
      = ⟨[], .error (typeError "Cannot read properties of undefined (reading object)")⟩ ∧
    webhookEvent exampleEnv noSocketWebhookRequest = .ok succeededEvent ∧
    webhook exampleEnv noSocketWebhookRequest
      = ⟨[], .error (typeError "Cannot read properties of undefined (reading to)")⟩ := by
  have h1 : webhookEvent exampleEnv missingDataWebhookRequest
      = .ok (.obj [("type", .str "payment_intent.succeeded")]) := by
    simp [webhookEvent, exampleEnv, missingDataWebhookRequest]
  have h2 : webhookEvent exampleEnv noSocketWebhookRequest = .ok succeededEvent := by
    simp [webhookEvent, exampleEnv, noSocketWebhookRequest]
  have h3 : webhookEvent noSecretEnv unsignedMissingDataRequest
      = .ok (.obj [("type", .str "payment_intent.succeeded")]) := by
    simp [webhookEvent, noSecretEnv, unsignedMissingDataRequest]
  refine ⟨h1, ?_, h3, ?_, h2, ?_⟩
  · simp [webhook, h1, webhookBroadcast, JsVal.getProp, JsVal.strictEqStr, List.lookup,
      typeError]
  · simp [webhook, h3, webhookBroadcast, JsVal.getProp, JsVal.strictEqStr, List.lookup,
      typeError]
  · have hio : noSocketWebhookRequest.socketio = false := rfl
    simp [webhook, h2, webhookBroadcast, succeededEvent, JsVal.getProp, JsVal.strictEqStr,
      List.lookup, ioToAdminRoom, hio, typeError]

/-! ## Major and minor units -/

/-- On an integer `Math.round` is the identity. -/
theorem mathRound_intCast (n : ℤ) : mathRound (n : ℚ) = n := by
  unfold mathRound
  rw [Int.floor_eq_iff]
  constructor <;> linarith

/-- Claim C10. For every amount that is a non-negative exact multiple of 0.01,
say `k / 100`, the minor-unit amount `Math.round(amount * 100)` sent by
`POST /create-payment-intent` is `k`, and dividing it by 100, as
`POST /confirm-payment` and the webhook cases do, gives the amount back.
For some amount with more than two decimal places (10.004) the value reported
back (10) differs from the amount submitted. -/
theorem minor_major_round_trip (env : Env) (k : ℕ) (lowered : String) (description : JsVal)
    (user : User) (pi : PaymentIntent) :
    (createParams env (.num ((k : ℚ) / 100)) lowered description user).amount
      = .num ((k : ℤ) : ℚ) ∧
    majorUnits { pi with amount := (k : ℤ) } = .num ((k : ℚ) / 100) ∧
    jsDiv env (.num ((k : ℤ) : ℚ)) 100 = .num ((k : ℚ) / 100) ∧
    (∃ a : ℚ, ∃ c : ℤ,
      (createParams env (.num a) lowered description user).amount = .num (c : ℚ) ∧
      majorUnits { pi with amount := c } ≠ .num a ∧
      jsDiv env (.num (c : ℚ)) 100 ≠ .num a) := by
  have hk : mathRound ((k : ℚ) / 100 * 100) = (k : ℤ) := by
    have h : (k : ℚ) / 100 * 100 = ((k : ℤ) : ℚ) := by push_cast; ring
    rw [h, mathRound_intCast]
  refine ⟨?_, ?_, ?_, 2501 / 250, 1000, ?_, ?_, ?_⟩
  · simp only [createParams, jsMul, toNumber, jsRound, hk]
  · simp [majorUnits]
  · simp [jsDiv, toNumber]
  · have h : mathRound ((2501 : ℚ) / 250 * 100) = 1000 := by
      norm_num [mathRound, Int.floor_eq_iff]
    simp only [createParams, jsMul, toNumber, jsRound, h]
  · simp only [majorUnits, ne_eq, JsVal.num.injEq]
    norm_num
  · simp only [jsDiv, toNumber, ne_eq, JsVal.num.injEq]
    norm_num

end Payments
